import Mathlib

/-!
Shallow embedding of the core of `Salesforce_streamlit.py`: record
normalization (lead-source remapping and state resolution), the "All"-sentinel
multiselect reconciliation callbacks, the filter pipeline of
`filtering_section`, and the aggregation views of `lead_analysis_charts` and
`us_map_visualization`.
-/

namespace SalesforceDashboard

/-- `ALLOWED_LEAD_SOURCES` from the source (lines 78-84). -/
def ALLOWED_LEAD_SOURCES : List String :=
  ["Indeed", "Google Leads - Website", "Website", "Customer Referral",
   "Self Generated"]

/-- The keys of `STATE_CENTROIDS` (lines 87-138), in source order;
`STATE_ABBREVIATIONS = set(STATE_CENTROIDS.keys())` (line 153). -/
def STATE_ABBREVIATIONS : List String :=
  ["AL", "AK", "AZ", "AR", "CA", "CO", "CT", "DE", "FL", "GA", "HI", "ID",
   "IL", "IN", "IA", "KS", "KY", "LA", "ME", "MD", "MA", "MI", "MN", "MS",
   "MO", "MT", "NE", "NV", "NH", "NJ", "NM", "NY", "NC", "ND", "OH", "OK",
   "OR", "PA", "RI", "SC", "SD", "TN", "TX", "UT", "VT", "VA", "WA", "WV",
   "WI", "WY"]

/-- `FULL_STATE_NAMES` from the source (lines 140-151). -/
def FULL_STATE_NAMES : List String :=
  ["Alabama", "Alaska", "Arizona", "Arkansas", "California", "Colorado",
   "Connecticut", "Delaware", "Florida", "Georgia", "Hawaii", "Idaho",
   "Illinois", "Indiana", "Iowa", "Kansas", "Kentucky", "Louisiana",
   "Maine", "Maryland", "Massachusetts", "Michigan", "Minnesota",
   "Mississippi", "Missouri", "Montana", "Nebraska", "Nevada",
   "New Hampshire", "New Jersey", "New Mexico", "New York",
   "North Carolina", "North Dakota", "Ohio", "Oklahoma", "Oregon",
   "Pennsylvania", "Rhode Island", "South Carolina", "South Dakota",
   "Tennessee", "Texas", "Utah", "Vermont", "Virginia", "Washington",
   "West Virginia", "Wisconsin", "Wyoming", "Washington D.C."]

/-- `STATE_ABBR_TO_NAME` from the source (lines 156-208), as an association
list in insertion order. -/
def STATE_ABBR_TO_NAME : List (String × String) :=
  [("AL", "Alabama"), ("AK", "Alaska"), ("AZ", "Arizona"), ("AR", "Arkansas"),
   ("CA", "California"), ("CO", "Colorado"), ("CT", "Connecticut"),
   ("DE", "Delaware"), ("FL", "Florida"), ("GA", "Georgia"), ("HI", "Hawaii"),
   ("ID", "Idaho"), ("IL", "Illinois"), ("IN", "Indiana"), ("IA", "Iowa"),
   ("KS", "Kansas"), ("KY", "Kentucky"), ("LA", "Louisiana"), ("ME", "Maine"),
   ("MD", "Maryland"), ("MA", "Massachusetts"), ("MI", "Michigan"),
   ("MN", "Minnesota"), ("MS", "Mississippi"), ("MO", "Missouri"),
   ("MT", "Montana"), ("NE", "Nebraska"), ("NV", "Nevada"),
   ("NH", "New Hampshire"), ("NJ", "New Jersey"), ("NM", "New Mexico"),
   ("NY", "New York"), ("NC", "North Carolina"), ("ND", "North Dakota"),
   ("OH", "Ohio"), ("OK", "Oklahoma"), ("OR", "Oregon"),
   ("PA", "Pennsylvania"), ("RI", "Rhode Island"), ("SC", "South Carolina"),
   ("SD", "South Dakota"), ("TN", "Tennessee"), ("TX", "Texas"),
   ("UT", "Utah"), ("VT", "Vermont"), ("VA", "Virginia"),
   ("WA", "Washington"), ("WV", "West Virginia"), ("WI", "Wisconsin"),
   ("WY", "Wyoming"), ("DC", "Washington D.C.")]

/-- Python `value.strip()`: remove leading and trailing whitespace. -/
def strip (s : String) : String :=
  ⟨((s.data.dropWhile Char.isWhitespace).reverse.dropWhile
      Char.isWhitespace).reverse⟩

/-- Python `value.upper()` (ASCII fragment, which covers every table
entry). -/
def upper (s : String) : String := ⟨s.data.map Char.toUpper⟩

/-- Python `str.title()` restricted to ASCII: an alphabetic character that
follows a non-alphabetic one (or starts the string) is upper-cased, an
alphabetic character following an alphabetic one is lower-cased, other
characters pass through. -/
def titlecaseChars : Bool → List Char → List Char
  | _, [] => []
  | prevAlpha, c :: cs =>
    (if c.isAlpha then (if prevAlpha then c.toLower else c.toUpper) else c)
      :: titlecaseChars c.isAlpha cs

/-- Python `value.title()` (ASCII fragment, which covers every table entry). -/
def titlecase (s : String) : String := ⟨titlecaseChars false s.data⟩

/-- `remap_lead_source` (lines 214-218), per element: the pandas `apply`
sends a missing/NaN value (modelled `none`) through the same lambda, where it
fails the membership test and becomes `"Other"`. -/
def remap_lead_source (x : Option String) : String :=
  match x with
  | some s => if s ∈ ALLOWED_LEAD_SOURCES then s else "Other"
  | none => "Other"

/-- The reverse lookup inside `determine_state` (lines 233-235): the first
abbreviation whose full name equals the given name, scanning
`STATE_ABBR_TO_NAME` in insertion order. -/
def abbrOfName (name : String) : Option String :=
  (STATE_ABBR_TO_NAME.find? (fun p => p.2 = name)).map (fun p => p.1)

/-- The per-field matching of `determine_state` (lines 227-235): strip the
value; if its upper-casing is a known abbreviation return that, else if its
title-casing is a known full name return the corresponding abbreviation. -/
def matchField (value : String) : Option String :=
  if upper (strip value) ∈ STATE_ABBREVIATIONS then some (upper (strip value))
  else if titlecase (strip value) ∈ FULL_STATE_NAMES then
    abbrOfName (titlecase (strip value))
  else none

/-- One raw lead row as consumed by the core: the three location fields, the
raw lead source, owner and product (all nullable), the status label, and the
creation timestamp split into the components the filters read (`dt.year` and
`dt.date`, the latter as an abstract totally ordered day number). -/
structure RawRecord where
  State : Option String
  Lead_State_Province : Option String
  Street : Option String
  LeadSource : Option String
  Status : String
  OwnerName : Option String
  Product : Option String
  year : Int
  date : Int
deriving DecidableEq, Repr

/-- A location field as seen by `determine_state`: a present string is
matched with `matchField`; an absent/non-string value (`row.get` default or
NaN, failing `isinstance(value, str)`) never matches. -/
def fieldMatch (value : Option String) : Option String :=
  match value with
  | some s => matchField s
  | none => none

/-- `determine_state` (lines 220-236): examine `State`,
`Lead_State_Province__c`, `Street` in that order and return the first
match, else `None`. -/
def determine_state (r : RawRecord) : Option String :=
  match fieldMatch r.State with
  | some c => some c
  | none =>
    match fieldMatch r.Lead_State_Province with
    | some c => some c
    | none => fieldMatch r.Street

/-- A canonical (processed) lead row: `LeadSource` already remapped,
`LeadState` resolved. -/
structure Lead where
  status : String
  leadSource : String
  ownerName : Option String
  product : Option String
  year : Int
  date : Int
  state : String
deriving DecidableEq, Repr

/-- The per-row part of `fetch_and_process_lead_data` (lines 336-339):
remap the lead source and attach the resolved state. -/
def toLead (r : RawRecord) (st : String) : Lead :=
  { status := r.Status, leadSource := remap_lead_source r.LeadSource,
    ownerName := r.OwnerName, product := r.Product,
    year := r.year, date := r.date, state := st }

/-- Lines 338-340 of `fetch_and_process_lead_data`: resolve each row's state
and drop the rows where it could not be determined
(`dropna(subset=['LeadState'])`). -/
def process (rows : List RawRecord) : List Lead :=
  rows.filterMap (fun r => (determine_state r).map (toLead r))

/-- The reconciliation body shared verbatim by the five multiselect
callbacks (`update_year` lines 377-385, `update_owner` lines 404-412,
`update_lead_source` lines 439-447, `update_lead_status` lines 465-473,
`update_product` lines 492-500): if `'All'` is selected together with other
entries, drop `'All'`; if nothing is selected, reset to `['All']`; otherwise
leave the selection unchanged. -/
def update_selection (selected : List String) : List String :=
  if "All" ∈ selected then
    if selected.length > 1 then selected.filter (fun v => v ≠ "All")
    else selected
  else if selected.isEmpty then ["All"]
  else selected

/-- `update_year` (lines 377-385). -/
def update_year (selected : List String) : List String := update_selection selected

/-- `update_owner` (lines 404-412). -/
def update_owner (selected : List String) : List String := update_selection selected

/-- `update_lead_source` (lines 439-447). -/
def update_lead_source (selected : List String) : List String := update_selection selected

/-- `update_lead_status` (lines 465-473). -/
def update_lead_status (selected : List String) : List String := update_selection selected

/-- `update_product` (lines 492-500). -/
def update_product (selected : List String) : List String := update_selection selected

/-- The invariant the spec states for a reconciled Selection: exactly the
singleton `['All']`, or a non-empty selection that does not contain the
sentinel `'All'`. -/
def selectionInvariant (s : List String) : Prop :=
  s = ["All"] ∨ (s ≠ [] ∧ "All" ∉ s)

instance (s : List String) : Decidable (selectionInvariant s) := by
  unfold selectionInvariant; infer_instance

/-- The filter inputs of `filtering_section`: the five reconciled dimension
selections and the date range bounds. -/
structure FilterState where
  year_selection : List String
  owner_selection : List String
  lead_source_selection : List String
  lead_status_selection : List String
  product_selection : List String
  date_from : Int
  date_to : Int
deriving DecidableEq, Repr

/-- The year filter (lines 540-545): skipped when `'All'` is selected;
otherwise the selected strings are converted with `int(...)` and rows are
kept when their creation year is among them; a conversion failure
(`ValueError`) leaves the frame unfiltered. -/
def applyYearFilter (sel : List String) (leads : List Lead) : List Lead :=
  if "All" ∈ sel then leads
  else
    match sel.mapM String.toInt? with
    | some years => leads.filter (fun l => l.year ∈ years)
    | none => leads

/-- One membership filter (`isin`) over a possibly-null column (lines
548-561): skipped when `'All'` is selected; a null field value is never a
member of the selection. -/
def applyMemberFilter (field : Lead → Option String) (sel : List String)
    (leads : List Lead) : List Lead :=
  if "All" ∈ sel then leads
  else leads.filter (fun l =>
    match field l with
    | some v => v ∈ sel
    | none => false)

/-- The five dimension filters of `filtering_section` in source order
(lines 540-561): Year, Owner, Lead Source, Lead Status, Product. -/
def applyDimensionFilters (fs : FilterState) (leads : List Lead) : List Lead :=
  applyMemberFilter (fun l => l.product) fs.product_selection
    (applyMemberFilter (fun l => some l.status) fs.lead_status_selection
      (applyMemberFilter (fun l => some l.leadSource) fs.lead_source_selection
        (applyMemberFilter (fun l => l.ownerName) fs.owner_selection
          (applyYearFilter fs.year_selection leads))))

/-- `filtering_section`'s filter pipeline (lines 527-568): apply the five
dimension filters, then the inclusive date-range filter only when
`date_from ≤ date_to`; the boolean is the sidebar error signal raised when
`date_from > date_to` (line 527-528). -/
def applyFilters (fs : FilterState) (leads : List Lead) : List Lead × Bool :=
  let dims := applyDimensionFilters fs leads
  let invalid := fs.date_from > fs.date_to
  let result :=
    if fs.date_from ≤ fs.date_to then
      dims.filter (fun l => fs.date_from ≤ l.date ∧ l.date ≤ fs.date_to)
    else dims
  (result, invalid)

/-- pandas `value_counts` as a multiset of `(value, count)` pairs: one pair
per distinct value, counting its occurrences (the descending-count display
order is irrelevant to the stated properties). -/
def value_counts (xs : List String) : List (String × Nat) :=
  xs.dedup.map (fun v => (v, (xs.filter (fun x => x = v)).length))

/-- `status_counts` of `lead_analysis_charts` (lines 589-590). -/
def status_counts (leads : List Lead) : List (String × Nat) :=
  value_counts (leads.map (fun l => l.status))

/-- `lead_source_counts` of `lead_analysis_charts` (lines 610-611). -/
def lead_source_counts (leads : List Lead) : List (String × Nat) :=
  value_counts (leads.map (fun l => l.leadSource))

/-- `SPECIFIC_LEAD_SOURCES` of `us_map_visualization` (lines 698-703). -/
def SPECIFIC_LEAD_SOURCES : List String :=
  ["Google Leads - Website", "Website", "Indeed", "Other"]

/-- Count of filtered leads in state `s` with lead source `src`
(the `groupby(['LeadState','LeadSource']).size()` cell, with the pivot's
`fillna(0)` making the count 0 when the combination is absent). -/
def countBy (leads : List Lead) (s src : String) : Nat :=
  (leads.filter (fun l => l.state = s ∧ l.leadSource = src)).length

/-- `lead_counts_total` per state (line 706): `groupby('LeadState').size()`. -/
def stateTotal (leads : List Lead) (s : String) : Nat :=
  (leads.filter (fun l => l.state = s)).length

/-- Lookup in `STATE_ABBR_TO_NAME` (the `.map(STATE_ABBR_TO_NAME)` of line
724). -/
def nameOfAbbr (s : String) : Option String :=
  (STATE_ABBR_TO_NAME.find? (fun p => p.1 = s)).map (fun p => p.2)

/-- The row index of the per-state pivot (lines 709-727): the distinct
states among the filtered leads whose source is in the displayed subset
(the pivot of `lead_counts_sources` after the `isin(SPECIFIC_LEAD_SOURCES)`
restriction), kept only when the state maps to a display name
(`dropna(subset=['State Name'])`). -/
def pivotStates (leads : List Lead) : List String :=
  (((leads.filter (fun l => l.leadSource ∈ SPECIFIC_LEAD_SOURCES)).map
      (fun l => l.state)).dedup).filter (fun s => (nameOfAbbr s).isSome)

/-- One row of the per-state view: the four displayed-source counts and the
total merged from `lead_counts_total`. -/
structure StateRow where
  state : String
  googleLeads : Nat
  website : Nat
  indeed : Nat
  other : Nat
  total : Nat
deriving DecidableEq, Repr

/-- The per-state view built by `us_map_visualization` (lines 706-727): one
row per pivot state, carrying each displayed source's count (0 when the
state has no such records) and the state's total lead count. -/
def us_map_rows (leads : List Lead) : List StateRow :=
  (pivotStates leads).map (fun s =>
    { state := s,
      googleLeads := countBy leads s "Google Leads - Website",
      website := countBy leads s "Website",
      indeed := countBy leads s "Indeed",
      other := countBy leads s "Other",
      total := stateTotal leads s })

/-- An all-`All` filter state whose date range admits day numbers 0-100. -/
def fsAll : FilterState :=
  { year_selection := ["All"], owner_selection := ["All"],
    lead_source_selection := ["All"], lead_status_selection := ["All"],
    product_selection := ["All"], date_from := 0, date_to := 100 }

/-- `fsAll` with the date bounds inverted (`from > to`). -/
def fsBad : FilterState := { fsAll with date_from := 100, date_to := 0 }

/-- A raw lead whose only displayed-source-relevant feature is that its
source, `Customer Referral`, is allowed but outside the displayed subset. -/
def rawReferralCA : RawRecord :=
  { State := some "CA", Lead_State_Province := none, Street := none,
    LeadSource := some "Customer Referral", Status := "New",
    OwnerName := some "Alice", Product := some "P1", year := 2024,
    date := 10 }

/-- A raw lead with `State="DC"`. -/
def rawDC : RawRecord :=
  { State := some "DC", Lead_State_Province := none, Street := none,
    LeadSource := some "Website", Status := "New",
    OwnerName := some "Alice", Product := some "P1", year := 2024,
    date := 10 }

/-- A raw lead whose `State` is `" ca "` (match after strip and upper). -/
def rawCASpaces : RawRecord :=
  { State := some " ca ", Lead_State_Province := none, Street := none,
    LeadSource := some "Website", Status := "New",
    OwnerName := some "Alice", Product := some "P1", year := 2024,
    date := 10 }

/-- A raw lead with `State="CA"` and conflicting content in the two other
location fields. -/
def rawCAConflict : RawRecord :=
  { State := some "CA", Lead_State_Province := some "Texas",
    Street := some "Florida", LeadSource := some "Website", Status := "New",
    OwnerName := some "Alice", Product := some "P1", year := 2024,
    date := 10 }

/-- A raw lead with a non-matching `State` and
`Lead_State_Province__c="Texas"`. -/
def rawTexas : RawRecord :=
  { State := some "??", Lead_State_Province := some "Texas",
    Street := some "CA", LeadSource := some "Indeed", Status := "New",
    OwnerName := some "Alice", Product := some "P1", year := 2024,
    date := 10 }

/-- A raw lead whose only location hint is a free-text street address that
contains, but does not equal, a state code. -/
def rawStreetAustin : RawRecord :=
  { State := some "", Lead_State_Province := some "",
    Street := some "123 Main St, Austin, TX", LeadSource := some "Website",
    Status := "Closed", OwnerName := some "Alice", Product := some "P1",
    year := 2024, date := 10 }

/-- A canonical lead in `TX` with the displayed source `Website`. -/
def leadWebsiteTX : Lead :=
  { status := "New", leadSource := "Website", ownerName := some "Alice",
    product := some "P1", year := 2024, date := 10, state := "TX" }

/-! Helper lemmas. -/

theorem update_selection_invariant (selected : List String)
    (h : selected.Nodup) : selectionInvariant (update_selection selected) := by
  unfold update_selection selectionInvariant
  by_cases hAll : "All" ∈ selected
  · rw [if_pos hAll]
    by_cases hlen : selected.length > 1
    · rw [if_pos hlen]
      right
      constructor
      · match selected, h, hAll, hlen with
        | a :: b :: t, h, hAll, hlen =>
          have hab : a ≠ b := by
            intro hab
            exact (List.nodup_cons.mp h).1 (hab ▸ List.mem_cons_self b t)
          by_cases ha : a = "All"
          · have hb : b ≠ "All" := fun hb => hab (ha.trans hb.symm)
            exact List.ne_nil_of_mem
              (List.mem_filter.mpr ⟨List.mem_cons_of_mem a (List.mem_cons_self b t),
                by simp [hb]⟩)
          · exact List.ne_nil_of_mem
              (List.mem_filter.mpr ⟨List.mem_cons_self a (b :: t), by simp [ha]⟩)
      · intro hmem
        have := List.mem_filter.mp hmem
        simp at this
    · rw [if_neg hlen]
      left
      match selected, h, hAll, hlen with
      | [], _, hAll, _ => cases hAll
      | [a], _, hAll, _ =>
        have : a = "All" := by
          rcases List.mem_cons.mp hAll with h1 | h1
          · exact h1.symm
          · cases h1
        rw [this]
      | a :: b :: t, _, _, hlen =>
        exact absurd (by simp) hlen
  · rw [if_neg hAll]
    by_cases hemp : selected.isEmpty = true
    · rw [if_pos hemp]
      left
      rfl
    · rw [if_neg hemp]
      right
      refine ⟨?_, hAll⟩
      intro he
      rw [he] at hemp
      exact hemp rfl

theorem sum_map_ite_zero (x : String) (keys : List String) (hx : x ∉ keys) :
    (keys.map (fun v => if x = v then (1 : Nat) else 0)).sum = 0 := by
  induction keys with
  | nil => rfl
  | cons k ks ih =>
    have hxk : x ≠ k := fun he => hx (he ▸ List.mem_cons_self k ks)
    have hxs : x ∉ ks := fun hm => hx (List.mem_cons_of_mem k hm)
    simp [hxk, ih hxs]

theorem sum_map_ite_one (x : String) (keys : List String)
    (hnd : keys.Nodup) (hx : x ∈ keys) :
    (keys.map (fun v => if x = v then (1 : Nat) else 0)).sum = 1 := by
  induction keys with
  | nil => cases hx
  | cons k ks ih =>
    rcases List.nodup_cons.mp hnd with ⟨hk, hks⟩
    by_cases hxk : x = k
    · subst hxk
      simp [sum_map_ite_zero x ks hk]
    · have hxs : x ∈ ks := (List.mem_cons.mp hx).resolve_left hxk
      simp [hxk, ih hks hxs]

theorem counts_sum_aux (keys : List String) (hnd : keys.Nodup) :
    ∀ xs : List String, (∀ x ∈ xs, x ∈ keys) →
      (keys.map (fun v => (xs.filter (fun x => x = v)).length)).sum
        = xs.length := by
  intro xs
  induction xs with
  | nil => intro; simp
  | cons x t ih =>
    intro hcov
    have hx : x ∈ keys := hcov x (List.mem_cons_self x t)
    have hcov' : ∀ y ∈ t, y ∈ keys :=
      fun y hy => hcov y (List.mem_cons_of_mem x hy)
    have hpt : (fun v => ((x :: t).filter (fun y => y = v)).length)
        = (fun v => (if x = v then (1 : Nat) else 0)
            + (t.filter (fun y => y = v)).length) := by
      funext v
      by_cases hv : x = v
      · simp [List.filter_cons, hv]
        omega
      · simp [List.filter_cons, hv]
    rw [hpt, List.sum_map_add, sum_map_ite_one x keys hnd hx, ih hcov']
    simp [Nat.add_comm]

theorem sum_value_counts (xs : List String) :
    ((value_counts xs).map (fun p => p.2)).sum = xs.length := by
  unfold value_counts
  rw [List.map_map]
  exact counts_sum_aux xs.dedup (List.nodup_dedup xs) xs
    (fun x hx => List.mem_dedup.mpr hx)

theorem stateTotal_split (leads : List Lead) (s : String) :
    stateTotal leads s =
      countBy leads s "Google Leads - Website" + countBy leads s "Website"
        + countBy leads s "Indeed" + countBy leads s "Other"
        + (leads.filter (fun l =>
            l.state = s ∧ l.leadSource ∉ SPECIFIC_LEAD_SOURCES)).length := by
  induction leads with
  | nil => rfl
  | cons l t ih =>
    unfold stateTotal countBy at ih ⊢
    by_cases hs : l.state = s
    · by_cases h1 : l.leadSource = "Google Leads - Website"
      · simp [List.filter_cons, hs, h1, SPECIFIC_LEAD_SOURCES] at ih ⊢
        omega
      · by_cases h2 : l.leadSource = "Website"
        · simp [List.filter_cons, hs, h1, h2, SPECIFIC_LEAD_SOURCES] at ih ⊢
          omega
        · by_cases h3 : l.leadSource = "Indeed"
          · simp [List.filter_cons, hs, h1, h2, h3,
              SPECIFIC_LEAD_SOURCES] at ih ⊢
            omega
          · by_cases h4 : l.leadSource = "Other"
            · simp [List.filter_cons, hs, h1, h2, h3, h4,
                SPECIFIC_LEAD_SOURCES] at ih ⊢
              omega
            · simp [List.filter_cons, hs, h1, h2, h3, h4,
                SPECIFIC_LEAD_SOURCES] at ih ⊢
              omega
    · simp [List.filter_cons, hs, SPECIFIC_LEAD_SOURCES] at ih ⊢
      omega

theorem process_length (rows : List RawRecord) :
    (process rows).length
      + (rows.filter (fun r => determine_state r = none)).length
      = rows.length := by
  induction rows with
  | nil => rfl
  | cons r t ih =>
    unfold process at ih ⊢
    cases h : determine_state r <;>
      simp [List.filterMap_cons, List.filter_cons, h] <;> omega

theorem process_state_mem (rows : List RawRecord) :
    ∀ l ∈ process rows, ∃ r ∈ rows, determine_state r = some l.state := by
  induction rows with
  | nil => simp [process]
  | cons r t ih =>
    intro l hl
    unfold process at hl
    rw [List.filterMap_cons] at hl
    cases h : determine_state r with
    | none =>
      rw [h] at hl
      obtain ⟨r', hr', h'⟩ := ih l hl
      exact ⟨r', List.mem_cons_of_mem r hr', h'⟩
    | some c =>
      rw [h] at hl
      rcases List.mem_cons.mp hl with hhead | htail
      · exact ⟨r, List.mem_cons_self r t, by rw [hhead]; exact h⟩
      · obtain ⟨r', hr', h'⟩ := ih l htail
        exact ⟨r', List.mem_cons_of_mem r hr', h'⟩

theorem process_state_mem_rev (rows : List RawRecord) :
    ∀ r ∈ rows, ∀ c, determine_state r = some c →
      ∃ l ∈ process rows, l.state = c := by
  induction rows with
  | nil => simp
  | cons r t ih =>
    intro r' hr' c hc
    unfold process
    rw [List.filterMap_cons]
    rcases List.mem_cons.mp hr' with hhead | htail
    · subst hhead
      rw [hc]
      exact ⟨toLead r' c, List.mem_cons_self _ _, rfl⟩
    · obtain ⟨l, hl, h'⟩ := ih r' htail c hc
      cases h : determine_state r with
      | none => exact ⟨l, hl, h'⟩
      | some c' => exact ⟨l, List.mem_cons_of_mem _ hl, h'⟩

/-! Claim theorems. -/

/-- C1 counterexample: starting from the reconciled subset `["2023"]`, an
edit that adds the sentinel `All` on top of the concrete value is reconciled
to the concrete subset `["2023"]`, not to `["All"]` — the callback drops
`All` whenever it coexists with concrete values, without consulting the
previous selection. -/
theorem c1_counterexample :
    update_year ["All"] = ["All"] ∧
    update_year ["2023"] = ["2023"] ∧
    update_year ["2023", "All"] = ["2023"] ∧
    update_year ["2023", "All"] ≠ ["All"] ∧
    update_owner ["Alice", "All"] = ["Alice"] := by
  decide

/-- C1 (amended): for every filter dimension, if the user's edit contains
the sentinel `All` together with at least one concrete value, the
reconciliation drops `All` and keeps exactly the concrete values — the
result is the concrete subset (never `ALL`), regardless of what the
previous reconciled selection was. -/
theorem c1_amended_drop_all (selected : List String)
    (hAll : "All" ∈ selected) (hconc : ∃ v ∈ selected, v ≠ "All") :
    update_year selected = selected.filter (fun v => v ≠ "All") ∧
    update_owner selected = selected.filter (fun v => v ≠ "All") ∧
    "All" ∉ update_year selected ∧
    update_year selected ≠ ["All"] := by
  obtain ⟨v, hv, hvne⟩ := hconc
  have hlen : selected.length > 1 := by
    match selected, hAll, hv with
    | [], hAll, _ => cases hAll
    | [a], hAll, hv =>
      have h1 : a = "All" := by
        rcases List.mem_cons.mp hAll with h | h
        · exact h.symm
        · cases h
      have h2 : v = a := by
        rcases List.mem_cons.mp hv with h | h
        · exact h
        · cases h
      exact absurd (h2.trans h1) hvne
    | a :: b :: t, _, _ => simp
  have hupd : update_selection selected
      = selected.filter (fun v => v ≠ "All") := by
    unfold update_selection
    rw [if_pos hAll, if_pos hlen]
  refine ⟨hupd, hupd, ?_, ?_⟩
  · unfold update_year
    rw [hupd]
    intro hmem
    have := (List.mem_filter.mp hmem).2
    simp at this
  · unfold update_year
    rw [hupd]
    intro heq
    have hm : "All" ∈ selected.filter (fun v => v ≠ "All") :=
      heq ▸ List.mem_cons_self "All" []
    have := (List.mem_filter.mp hm).2
    simp at this

/-- Closed witness for `c1_amended_drop_all` at the edit
`["2023", "All"]`. -/
theorem c1_witness :
    update_year ["2023", "All"]
        = (["2023", "All"] : List String).filter (fun v => v ≠ "All") ∧
    update_owner ["2023", "All"]
        = (["2023", "All"] : List String).filter (fun v => v ≠ "All") ∧
    "All" ∉ update_year ["2023", "All"] ∧
    update_year ["2023", "All"] ≠ ["All"] :=
  c1_amended_drop_all ["2023", "All"] (by decide) ⟨"2023", by decide, by decide⟩

/-- C2 counterexample: a filtered set whose only record is a Californian
lead with the allowed but non-displayed source `Customer Referral` — the
state `CA` appears in the filtered set, yet the per-state view has no row
for it at all, because the pivot index is built after restricting to the
four displayed sources. -/
theorem c2_counterexample :
    (applyFilters fsAll (process [rawReferralCA])).1
        = process [rawReferralCA] ∧
    (process [rawReferralCA]).map (fun l => l.state) = ["CA"] ∧
    process [rawReferralCA] ≠ [] ∧
    us_map_rows (process [rawReferralCA]) = [] := by
  decide

/-- C2 (amended): the per-state view has one row exactly for each state
with at least one filtered record whose source is in the displayed subset
(a state all of whose records carry sources outside that subset is absent
from the view); each present row carries a count for each of the four
displayed sources (0 when the state has no records for it), and its Total
equals the sum of the four displayed counts plus the number of that state's
filtered records whose source is outside the displayed subset. -/
theorem c2_amended_pivot (leads : List Lead) (s : String)
    (h : s ∈ pivotStates leads) :
    ((us_map_rows leads).map (fun row => row.state) = pivotStates leads) ∧
    ∃ row ∈ us_map_rows leads,
      row.state = s ∧
      row.googleLeads = countBy leads s "Google Leads - Website" ∧
      row.website = countBy leads s "Website" ∧
      row.indeed = countBy leads s "Indeed" ∧
      row.other = countBy leads s "Other" ∧
      row.total = stateTotal leads s ∧
      row.total = row.googleLeads + row.website + row.indeed + row.other
        + (leads.filter (fun l =>
            l.state = s ∧ l.leadSource ∉ SPECIFIC_LEAD_SOURCES)).length := by
  constructor
  · unfold us_map_rows
    rw [List.map_map]
    show List.map (fun s => s) (pivotStates leads) = pivotStates leads
    exact List.map_id (pivotStates leads)
  · refine ⟨_, List.mem_map_of_mem _ h, ?_⟩
    exact ⟨rfl, rfl, rfl, rfl, rfl, rfl, stateTotal_split leads s⟩

/-- Closed witness for `c2_amended_pivot` at a one-record filtered set with
a Texan `Website` lead. -/
theorem c2_witness :
    ((us_map_rows [leadWebsiteTX]).map (fun row => row.state)
        = pivotStates [leadWebsiteTX]) ∧
    ∃ row ∈ us_map_rows [leadWebsiteTX],
      row.state = "TX" ∧
      row.googleLeads = countBy [leadWebsiteTX] "TX" "Google Leads - Website" ∧
      row.website = countBy [leadWebsiteTX] "TX" "Website" ∧
      row.indeed = countBy [leadWebsiteTX] "TX" "Indeed" ∧
      row.other = countBy [leadWebsiteTX] "TX" "Other" ∧
      row.total = stateTotal [leadWebsiteTX] "TX" ∧
      row.total = row.googleLeads + row.website + row.indeed + row.other
        + ([leadWebsiteTX].filter (fun l =>
            l.state = "TX" ∧ l.leadSource ∉ SPECIFIC_LEAD_SOURCES)).length :=
  c2_amended_pivot [leadWebsiteTX] "TX" (by decide)

/-- C3 counterexample: the code's abbreviation set (the keys of
`STATE_CENTROIDS`) has exactly 50 entries and does not contain `DC`, so a
record whose `State` field is `"DC"` — which trims and upper-cases to
itself — does not resolve and is dropped from the canonical set. -/
theorem c3_counterexample :
    upper (strip "DC") = "DC" ∧
    STATE_ABBREVIATIONS.length = 50 ∧
    "DC" ∉ STATE_ABBREVIATIONS ∧
    "DC" ∈ (STATE_ABBR_TO_NAME.map (fun p => p.1)) ∧
    determine_state rawDC = none ∧
    process [rawDC] = [] := by
  decide

/-- C3 (amended): for every raw record whose structured `State` field,
after trimming whitespace and upper-casing, equals one of the 50 two-letter
codes in the code's abbreviation table (the keys of `STATE_CENTROIDS`,
which exclude `DC`), normalization resolves the state to that code and the
record enters the canonical set; `DC` itself is absent from that table and
a bare `"DC"` does not resolve (only the full name `Washington D.C.`
reaches the code `DC`). -/
theorem c3_amended_codes (r : RawRecord) (s : String)
    (hs : r.State = some s) (h : upper (strip s) ∈ STATE_ABBREVIATIONS) :
    determine_state r = some (upper (strip s)) ∧
    (process [r]).map (fun l => l.state) = [upper (strip s)] := by
  have hm : matchField s = some (upper (strip s)) := by
    unfold matchField
    rw [if_pos h]
  have hd : determine_state r = some (upper (strip s)) := by
    simp [determine_state, fieldMatch, hs, hm]
  exact ⟨hd, by simp [process, hd, toLead]⟩

/-- Closed witness for `c3_amended_codes` at `State=" ca "`. -/
theorem c3_witness :
    determine_state rawCASpaces = some (upper (strip " ca ")) ∧
    (process [rawCASpaces]).map (fun l => l.state) = [upper (strip " ca ")] :=
  c3_amended_codes rawCASpaces " ca " rfl (by decide)

/-- C4: every edit reconciled by any of the five dimension callbacks (the
edit being any duplicate-free submitted selection) yields either exactly
the singleton `['All']` or a non-empty selection never containing the
sentinel `All`; an empty submitted selection resets to `['All']`, and the
initial state `['All']` itself satisfies the invariant. -/
theorem c4_reconciled_invariant (selected : List String)
    (h : selected.Nodup) :
    selectionInvariant (update_year selected) ∧
    selectionInvariant (update_owner selected) ∧
    selectionInvariant (update_lead_source selected) ∧
    selectionInvariant (update_lead_status selected) ∧
    selectionInvariant (update_product selected) ∧
    update_year [] = ["All"] ∧
    selectionInvariant ["All"] :=
  ⟨update_selection_invariant selected h,
   update_selection_invariant selected h,
   update_selection_invariant selected h,
   update_selection_invariant selected h,
   update_selection_invariant selected h,
   by decide, by decide⟩

/-- Closed witness for `c4_reconciled_invariant` at the edit
`["2023", "All"]`. -/
theorem c4_witness :
    selectionInvariant (update_year ["2023", "All"]) ∧
    selectionInvariant (update_owner ["2023", "All"]) ∧
    selectionInvariant (update_lead_source ["2023", "All"]) ∧
    selectionInvariant (update_lead_status ["2023", "All"]) ∧
    selectionInvariant (update_product ["2023", "All"]) ∧
    update_year [] = ["All"] ∧
    selectionInvariant ["All"] :=
  c4_reconciled_invariant ["2023", "All"] (by decide)

/-- C5: the lead-source mapping is the identity on every member of the
six-element allowed set (the five `ALLOWED_LEAD_SOURCES` plus `Other`),
maps every value outside `ALLOWED_LEAD_SOURCES` — absent/null included —
to `Other`, and always lands in the six-element allowed set. -/
theorem c5_remap_lead_source (x : Option String) :
    (∀ s, x = some s → s ∈ "Other" :: ALLOWED_LEAD_SOURCES →
      remap_lead_source x = s) ∧
    (∀ s, x = some s → s ∉ ALLOWED_LEAD_SOURCES →
      remap_lead_source x = "Other") ∧
    (x = none → remap_lead_source x = "Other") ∧
    remap_lead_source x ∈ "Other" :: ALLOWED_LEAD_SOURCES := by
  refine ⟨?_, ?_, ?_, ?_⟩
  · intro s hx hs
    subst hx
    unfold remap_lead_source
    by_cases h : s ∈ ALLOWED_LEAD_SOURCES
    · simp [h]
    · have hOther : s = "Other" := by
        rcases List.mem_cons.mp hs with h1 | h1
        · exact h1
        · exact absurd h1 h
      simp [h, hOther]
  · intro s hx hs
    subst hx
    simp [remap_lead_source, hs]
  · intro hx
    subst hx
    rfl
  · cases x with
    | none => exact List.mem_cons_self "Other" ALLOWED_LEAD_SOURCES
    | some s =>
      unfold remap_lead_source
      by_cases h : s ∈ ALLOWED_LEAD_SOURCES
      · simp only [if_pos h]
        exact List.mem_cons_of_mem "Other" h
      · simp only [if_neg h]
        exact List.mem_cons_self "Other" ALLOWED_LEAD_SOURCES

/-- Closed witness for `c5_remap_lead_source`: identity on an allowed
value, collapse of `"Partner Event"` and of an absent value to `Other`. -/
theorem c5_witness :
    remap_lead_source (some "Website") = "Website" ∧
    remap_lead_source (some "Partner Event") = "Other" ∧
    remap_lead_source none = "Other" :=
  ⟨(c5_remap_lead_source (some "Website")).1 "Website" rfl (by decide),
   (c5_remap_lead_source (some "Partner Event")).2.1 "Partner Event" rfl
     (by decide),
   (c5_remap_lead_source none).2.2.1 rfl⟩

/-- C6: state resolution gives the structured `State` field first priority
— whenever it matches, the result is that match regardless of the other two
location fields — a non-matching `State` falls through to
`Lead_State_Province__c`, where the value `"Texas"` resolves to `TX`; and
both `"CA"` and `"ca"` match as the code `CA`. -/
theorem c6_field_priority (r : RawRecord) :
    (∀ c, fieldMatch r.State = some c → determine_state r = some c) ∧
    (fieldMatch r.State = none → r.Lead_State_Province = some "Texas" →
      determine_state r = some "TX") ∧
    matchField "CA" = some "CA" ∧
    matchField "ca" = some "CA" := by
  refine ⟨?_, ?_, by decide, by decide⟩
  · intro c h
    unfold determine_state
    rw [h]
  · intro h1 h2
    have hTexas : matchField "Texas" = some "TX" := by decide
    unfold determine_state
    rw [h1, h2]
    simp [fieldMatch, hTexas]

/-- Closed witness for `c6_field_priority`: `State="CA"` wins over
conflicting `Lead_State_Province__c` and `Street` content, and a
non-matching `State` with `Lead_State_Province__c="Texas"` gives `TX`. -/
theorem c6_witness :
    determine_state rawCAConflict = some "CA" ∧
    determine_state rawTexas = some "TX" :=
  ⟨(c6_field_priority rawCAConflict).1 "CA" (by decide),
   (c6_field_priority rawTexas).2.1 (by decide) rfl⟩

/-- C7: the canonical set retains exactly the raw records whose state
resolution succeeds — its size plus the number of records with no
resolvable state equals the raw-set size, every canonical record's state
comes from a successful resolution of some raw record, and every raw
record that resolves contributes a canonical record with that state. -/
theorem c7_canonical_set (rows : List RawRecord) :
    (process rows).length
        + (rows.filter (fun r => determine_state r = none)).length
        = rows.length ∧
    (∀ l ∈ process rows, ∃ r ∈ rows, determine_state r = some l.state) ∧
    (∀ r ∈ rows, ∀ c, determine_state r = some c →
      ∃ l ∈ process rows, l.state = c) :=
  ⟨process_length rows, process_state_mem rows, process_state_mem_rev rows⟩

/-- Closed witness for `c7_canonical_set` at a concrete two-record raw set
(one resolvable record, one not). -/
theorem c7_witness :
    ((process [rawCAConflict, rawStreetAustin]).length
        + (([rawCAConflict, rawStreetAustin] : List RawRecord).filter
            (fun r => determine_state r = none)).length = 2) ∧
    ∃ l ∈ process [rawCAConflict, rawStreetAustin], l.state = "CA" :=
  ⟨(c7_canonical_set [rawCAConflict, rawStreetAustin]).1,
   (c7_canonical_set [rawCAConflict, rawStreetAustin]).2.2 rawCAConflict
     (by decide) "CA" (by decide)⟩

/-- C8: when `date_from > date_to` the pipeline signals the invalid range
and returns exactly the result of the five dimension filters (the date
predicate is skipped, every record passes it); when `date_from ≤ date_to`
no signal is raised and the result keeps exactly the dimension-filtered
records whose creation date lies within the inclusive bounds. -/
theorem c8_date_range (fs : FilterState) (leads : List Lead) :
    (fs.date_from > fs.date_to →
      (applyFilters fs leads).2 = true ∧
      (applyFilters fs leads).1 = applyDimensionFilters fs leads) ∧
    (fs.date_from ≤ fs.date_to →
      (applyFilters fs leads).2 = false ∧
      ∀ l, l ∈ (applyFilters fs leads).1 ↔
        (l ∈ applyDimensionFilters fs leads ∧
          fs.date_from ≤ l.date ∧ l.date ≤ fs.date_to)) := by
  constructor
  · intro h
    have h' : ¬ fs.date_from ≤ fs.date_to := not_le.mpr h
    constructor
    · simp [applyFilters, h]
    · simp [applyFilters, h']
  · intro h
    have h' : ¬ fs.date_from > fs.date_to := not_lt.mpr h
    constructor
    · simp [applyFilters, h']
    · intro l
      simp [applyFilters, h, List.mem_filter]

/-- Closed witness for `c8_date_range`: the inverted range `(100, 0)`
signals and skips the date predicate, the valid range `(0, 100)` keeps the
in-range record. -/
theorem c8_witness :
    ((applyFilters fsBad [leadWebsiteTX]).2 = true ∧
      (applyFilters fsBad [leadWebsiteTX]).1
        = applyDimensionFilters fsBad [leadWebsiteTX]) ∧
    ((applyFilters fsAll [leadWebsiteTX]).2 = false ∧
      ∀ l, l ∈ (applyFilters fsAll [leadWebsiteTX]).1 ↔
        (l ∈ applyDimensionFilters fsAll [leadWebsiteTX] ∧
          fsAll.date_from ≤ l.date ∧ l.date ≤ fsAll.date_to)) :=
  ⟨(c8_date_range fsBad [leadWebsiteTX]).1 (by decide),
   (c8_date_range fsAll [leadWebsiteTX]).2 (by decide)⟩

/-- C9: for every filtered record set, the counts of the status view sum
to the number of filtered records, and so do the counts of the lead-source
view — each record is counted exactly once in each grouping. -/
theorem c9_counts_total (leads : List Lead) :
    ((status_counts leads).map (fun p => p.2)).sum = leads.length ∧
    ((lead_source_counts leads).map (fun p => p.2)).sum = leads.length := by
  constructor
  · rw [status_counts, sum_value_counts, List.length_map]
  · rw [lead_source_counts, sum_value_counts, List.length_map]

/-- C10: a location field matches only when its entire stripped value
equals a known code after upper-casing or a known full name after
title-casing (no substring search), so the free-text street value
`"123 Main St, Austin, TX"`, which merely contains a state code, does not
resolve, and a record with no other matching field is dropped from the
canonical set. -/
theorem c10_whole_field_match :
    (∀ v c, matchField v = some c →
      upper (strip v) ∈ STATE_ABBREVIATIONS ∨
        titlecase (strip v) ∈ FULL_STATE_NAMES) ∧
    matchField "123 Main St, Austin, TX" = none ∧
    determine_state rawStreetAustin = none ∧
    process [rawStreetAustin] = [] := by
  refine ⟨?_, by decide, by decide, by decide⟩
  intro v c h
  unfold matchField at h
  by_cases h1 : upper (strip v) ∈ STATE_ABBREVIATIONS
  · exact Or.inl h1
  · by_cases h2 : titlecase (strip v) ∈ FULL_STATE_NAMES
    · exact Or.inr h2
    · rw [if_neg h1, if_neg h2] at h
      cases h

/-- Closed witness for `c10_whole_field_match`: the matching value
`"California"` satisfies the whole-value characterization. -/
theorem c10_witness :
    upper (strip "California") ∈ STATE_ABBREVIATIONS ∨
      titlecase (strip "California") ∈ FULL_STATE_NAMES :=
  c10_whole_field_match.1 "California" "CA" (by decide)

end SalesforceDashboard
